import Mathlib

/-!
Verification development for the fb_scraper repository.

The repository contains two generations of the same scraper:
`FB_Scraper_V2.py` (class FacebookCommentScraper) and `scraper_full.py`
(class FacebookScraperFullHeadless).  Both are embedded below.  Pure string
processing (URL classification, comment-text classification, name cleaning,
whitespace normalisation) is translated function by function; the stateful
parts (the per-URL dedup store and the harvest cycle loops) are embedded as
explicit state-passing functions whose per-cycle browser observations are
supplied as inputs.

Modelling conventions:
- Python strings are Lean `String` and are processed mostly on `List Char`.
- Python regex character classes are modelled over the character sets the
  code uses; the classes `\w`, `\d` and `\s` are modelled with
  `Char.isAlphanum`/`Char.isDigit`/`Char.isWhitespace` (the ASCII reading of
  the Python classes).
- Regex substitutions are translated into explicit left-to-right scans with
  the same leftmost-match semantics; functions that are not structurally
  recursive take a fuel argument that the wrappers instantiate with the
  length of the input, which bounds the number of scan steps and is never
  exhausted.
-/

/-- The apostrophe character, written by code point. -/
def apoChar : Char := Char.ofNat 39

/-- Python `pat in s` on character lists (contiguous substring test). -/
def containsSub (pat : List Char) : List Char → Bool
  | [] => pat.isEmpty
  | c :: cs => pat.isPrefixOf (c :: cs) || containsSub pat cs

/-- Python `pat in s` on strings. -/
def containsSubstr (s pat : String) : Bool := containsSub pat.toList s.toList

/-- Python `s.lower()` (ASCII case folding, as `Char.toLower`). -/
def lowerStr (s : String) : String := (s.toList.map Char.toLower).asString

/-- Python `s.strip()` on a character list. -/
def trimChars (l : List Char) : List Char :=
  ((l.dropWhile Char.isWhitespace).reverse.dropWhile Char.isWhitespace).reverse

/-- Python `s.strip()` on strings. -/
def pyStrip (s : String) : String := (trimChars s.toList).asString

/-- Helper for Python `s.split()`: cut a character list at whitespace runs,
dropping empty pieces.  The accumulator carries the current word reversed. -/
def wordsAux : List Char → List Char → List (List Char)
  | [], acc => if acc.isEmpty then [] else [acc.reverse]
  | c :: cs, acc =>
    if Char.isWhitespace c then
      if acc.isEmpty then wordsAux cs [] else acc.reverse :: wordsAux cs []
    else wordsAux cs (c :: acc)

/-- Python `s.split()` (split on whitespace runs, no empty fields). -/
def pySplit (s : String) : List String := (wordsAux s.toList []).map List.asString

/-- Python `' '.join(s.split())`: the whitespace-collapsing normalisation the
comment store of scraper_full.py applies before its dedup check. -/
def normalizeBody (s : String) : String := String.intercalate " " (pySplit s)

/-- Python `re.sub(r'\s+', ' ', s).strip()` on a character list (used by
FB_Scraper_V2.extract_comment_info, line 217). -/
def collapseWsChars (l : List Char) : List Char := List.intercalate [' '] (wordsAux l [])

/- ------------------------------------------------------------------ -/
/- Content-type classification (C1).                                   -/
/- FB_Scraper_V2.py, determine_url_type (lines 47-63) and              -/
/- scraper_full.py, determine_url_type (lines 62-77).                  -/
/- ------------------------------------------------------------------ -/

def watch_patterns : List String :=
  ["/watch/", "watch?v=", "/video/", "/videos/", "/live/", "/media/"]

def reel_patterns : List String := ["/reel/", "/reels/"]

def post_patterns : List String :=
  ["/posts/", "/permalink", "story.php", "/photo", "/photos/", "/groups/"]

/-- `any(pattern in url_lower for pattern in patterns)`. -/
def anyPatternIn (patterns : List String) (url : String) : Bool :=
  patterns.any (fun p => containsSubstr (lowerStr url) p)

/-- FB_Scraper_V2.determine_url_type: watch patterns, then reel patterns,
then post patterns, defaulting to the string watch. -/
def determine_url_type (url : String) : String :=
  if anyPatternIn watch_patterns url then "watch"
  else if anyPatternIn reel_patterns url then "reel"
  else if anyPatternIn post_patterns url then "post"
  else "watch"

/-- scraper_full.determine_url_type: watch patterns, then reel patterns; no
post pattern check, everything else is POST. -/
def determine_url_type_full (url : String) : String :=
  if anyPatternIn watch_patterns url then "WATCH"
  else if anyPatternIn reel_patterns url then "REEL"
  else "POST"

/- ------------------------------------------------------------------ -/
/- Text classifier (C4, C5).                                           -/
/- FB_Scraper_V2.py, is_meaningful_text (lines 65-113).                -/
/- ------------------------------------------------------------------ -/

/-- Python regex `\w` (word character), ASCII reading. -/
def isWordChar (c : Char) : Bool := c.isAlphanum || c = '_'

/-- Case-insensitive literal matcher: if the lowercase pattern `p` is a
prefix of `l` up to `Char.toLower`, return the rest of `l`. -/
def dropLitCI : List Char → List Char → Option (List Char)
  | [], l => some l
  | _ :: _, [] => none
  | p :: ps, c :: cs => if c.toLower = p then dropLitCI ps cs else none

/-- `re.sub(r'@\w+', '', t)`: drop each at-sign that is directly followed by
a word character, together with the following word-character run. -/
def stripMentionsA : Nat → List Char → List Char
  | 0, l => l
  | _ + 1, [] => []
  | fuel + 1, c :: cs =>
    if c = '@' && (match cs with | d :: _ => isWordChar d | [] => false) then
      stripMentionsA fuel (cs.dropWhile isWordChar)
    else
      c :: stripMentionsA fuel cs

/-- `re.sub(r'@\s+\w+', '', t)`: drop each at-sign followed by a whitespace
run and then a word-character run. -/
def stripMentionsB : Nat → List Char → List Char
  | 0, l => l
  | _ + 1, [] => []
  | fuel + 1, c :: cs =>
    if c = '@' && !(cs.takeWhile Char.isWhitespace).isEmpty
        && (match cs.dropWhile Char.isWhitespace with
            | d :: _ => isWordChar d | [] => false) then
      stripMentionsB fuel ((cs.dropWhile Char.isWhitespace).dropWhile isWordChar)
    else
      c :: stripMentionsB fuel cs

/-- The five words removed by
`re.sub(r'\b(like|reply|share|view|hide)\b', '', t, flags=re.IGNORECASE)`. -/
def uiStripWords : List (List Char) :=
  ["like", "reply", "share", "view", "hide"].map String.toList

/-- A regex word boundary to the right: end of input or a non-word char. -/
def wordBoundaryOk : List Char → Bool
  | [] => true
  | c :: _ => !isWordChar c

/-- Try the alternatives of the word-removal regex at the current position,
in order, requiring the trailing word boundary. -/
def tryStripWordIn : List (List Char) → List Char → Option (List Char)
  | [], _ => none
  | w :: ws, l =>
    match dropLitCI w l with
    | some rest => if wordBoundaryOk rest then some rest else tryStripWordIn ws l
    | none => tryStripWordIn ws l

/-- The scan of the word-removal regex.  The flag records whether the
previous character was a word character (no left word boundary there). -/
def stripUIWordTokens : Nat → Bool → List Char → List Char
  | 0, _, l => l
  | _ + 1, _, [] => []
  | fuel + 1, prevIsWord, c :: cs =>
    if prevIsWord then c :: stripUIWordTokens fuel (isWordChar c) cs
    else
      match tryStripWordIn uiStripWords (c :: cs) with
      | some rest => stripUIWordTokens fuel true rest
      | none => c :: stripUIWordTokens fuel (isWordChar c) cs

/-- The cleaning pipeline of is_meaningful_text (lines 102-106): strip
mentions, strip the five UI words, strip outer whitespace. -/
def cleanTestText (l : List Char) : List Char :=
  let t1 := stripMentionsA l.length l
  let t2 := stripMentionsB t1.length t1
  let t3 := stripUIWordTokens t2.length false t2
  trimChars t3

/-- Units of the timestamp regex on line 88:
`(w|weeks?|d|days?|h|hours?|m|minutes?|s|seconds?|months?|years?)`. -/
def timeUnits1 : List (List Char) :=
  (["w", "week", "weeks", "d", "day", "days", "h", "hour", "hours",
    "m", "minute", "minutes", "s", "second", "seconds",
    "month", "months", "year", "years"]).map String.toList

/-- Units of the timestamp regex on line 182 of extract_comment_info, which
lacks the lone letter s alternative:
`(w|weeks?|d|days?|h|hours?|m|minutes?|seconds?|months?|years?)`. -/
def timeUnitsLine : List (List Char) :=
  (["w", "week", "weeks", "d", "day", "days", "h", "hour", "hours",
    "m", "minute", "minutes", "second", "seconds",
    "month", "months", "year", "years"]).map String.toList

def agoChars : List Char := ['a', 'g', 'o']

/-- The `\s*ago$` tail of the timestamp regexes. -/
def matchesAgoEnd (l : List Char) : Bool :=
  (l.dropWhile Char.isWhitespace).map Char.toLower = agoChars

/-- Full match of `^\d+\s*(units)\s*ago$` (IGNORECASE). -/
def matchTimestampAgo (units : List (List Char)) (l : List Char) : Bool :=
  !(l.takeWhile Char.isDigit).isEmpty &&
    (let rest := (l.dropWhile Char.isDigit).dropWhile Char.isWhitespace
     units.any (fun u =>
       match dropLitCI u rest with
       | some r => matchesAgoEnd r
       | none => false))

/-- Full match of `^\d+[wdhms]$` (IGNORECASE). -/
def matchTimestampShort (l : List Char) : Bool :=
  !(l.takeWhile Char.isDigit).isEmpty &&
    (match l.dropWhile Char.isDigit with
     | [c] => ['w', 'd', 'h', 'm', 's'].contains c.toLower
     | _ => false)

/-- Full match of `^\d+$`. -/
def isAllDigits (l : List Char) : Bool := !l.isEmpty && l.all Char.isDigit

/-- The four timestamp patterns of is_meaningful_text (lines 87-95). -/
def isTimestampText (tc : String) : Bool :=
  matchTimestampAgo timeUnits1 tc.toList || matchTimestampShort tc.toList
    || lowerStr tc = "just now" || lowerStr tc = "yesterday"

/-- The UI vocabulary of is_meaningful_text (lines 79-82). -/
def ui_elements : List String :=
  ["like", "reply", "share", "view", "hide", "edited", "translated",
   "write a comment", "most relevant", "author", "top fan"]

/-- The character class of the final rejection regex on line 109:
`[\d\s\.\,\!\?\-\+\=\*\(\)\[\]]`. -/
def junkChars : List Char :=
  ['.', ',', '!', '?', '-', '+', '=', '*', '(', ')', '[', ']']

def isJunkChar (c : Char) : Bool :=
  c.isDigit || c.isWhitespace || junkChars.contains c

/-- Full match of `^[\d\s\.\,\!\?\-\+\=\*\(\)\[\]]+$`. -/
def isJunkOnly (l : List Char) : Bool := !l.isEmpty && l.all isJunkChar

/-- Number of characters outside the line-109 class: letters and other
symbols that the classifier counts as significant content. -/
def countSignificant (l : List Char) : Nat := l.countP (fun c => !isJunkChar c)

/-- FB_Scraper_V2.is_meaningful_text (lines 65-113), step for step; the
local Python variables text_clean = pyStrip text and
test_text = cleanTestText (pyStrip text).toList are inlined. -/
def is_meaningful_text (text commenter_name : String) : Bool :=
  if text = "" ∨ pyStrip text = "" then false
  else if (pyStrip text).length < 1 then false
  else if lowerStr (pyStrip text) = lowerStr commenter_name then false
  else if (ui_elements.map lowerStr).contains (lowerStr (pyStrip text)) then false
  else if isTimestampText (pyStrip text) then false
  else if isAllDigits (pyStrip text).toList then false
  else if 2 ≤ (cleanTestText (pyStrip text).toList).length then
    !(isJunkOnly (cleanTestText (pyStrip text).toList))
  else false

/- ------------------------------------------------------------------ -/
/- Author extraction and comment extraction (C10).                     -/
/- FB_Scraper_V2.py, extract_comment_info (lines 115-235).             -/
/- ------------------------------------------------------------------ -/

/-- `\s+` then maximal whitespace run: succeeds only when the next character
is whitespace and consumes the whole run. -/
def wsPlus : List Char → Option (List Char)
  | c :: cs =>
    if Char.isWhitespace c then some (cs.dropWhile Char.isWhitespace) else none
  | [] => none

/-- `\d+` with maximal munch. -/
def digitsPlus : List Char → Option (List Char)
  | c :: cs => if c.isDigit then some (cs.dropWhile Char.isDigit) else none
  | [] => none

def thenWsPlus (o : Option (List Char)) : Option (List Char) := o.bind wsPlus

def thenLitCI (pat : List Char) (o : Option (List Char)) : Option (List Char) :=
  o.bind (dropLitCI pat)

def thenDigits (o : Option (List Char)) : Option (List Char) := o.bind digitsPlus

def toChars : List Char := ['t', 'o']
def commentChars : List Char := ['c', 'o', 'm', 'm', 'e', 'n', 't']
def justNowChars : List Char := ['j', 'u', 's', 't', ' ', 'n', 'o', 'w']
def yesterdayChars : List Char := ['y', 'e', 's', 't', 'e', 'r', 'd', 'a', 'y']
def sCommentChars : List Char := apoChar :: 's' :: ' ' :: commentChars

/-- Units of the name-cleaning timestamp regex (no single-letter forms):
`(weeks?|days?|hours?|minutes?|seconds?|months?|years?)`. -/
def timeUnitsName : List (List Char) :=
  (["week", "weeks", "day", "days", "hour", "hours", "minute", "minutes",
    "second", "seconds", "month", "months", "year", "years"]).map String.toList

/-- Match of the core of `\s+to\s+[^']+'s\s+comment.*$` at the current
position.  The class `[^']+` runs maximally up to the first apostrophe. -/
def coreToComment1 (l : List Char) : Bool :=
  match some l |> thenWsPlus |> thenLitCI toChars |> thenWsPlus with
  | some l3 =>
    if (l3.takeWhile (fun c => c ≠ apoChar)).isEmpty then false
    else
      match l3.dropWhile (fun c => c ≠ apoChar) with
      | _ :: r1 =>
        (some r1 |> thenLitCI ['s'] |> thenWsPlus |> thenLitCI commentChars).isSome
      | [] => false
  | none => false

/-- Match of the core of `\s+to\s+.*?comment.*$` at the current position:
after the lead-in, the word comment occurs anywhere later. -/
def coreToComment2 (l : List Char) : Bool :=
  match some l |> thenWsPlus |> thenLitCI toChars |> thenWsPlus with
  | some l3 => containsSub commentChars (l3.map Char.toLower)
  | none => false

/-- Match of the core of
`\s+\d+\s*(weeks?|...|years?)\s*ago.*$` at the current position. -/
def coreTimeAgo (l : List Char) : Bool :=
  match some l |> thenWsPlus |> thenDigits with
  | some l2 =>
    let l3 := l2.dropWhile Char.isWhitespace
    timeUnitsName.any (fun u =>
      match dropLitCI u l3 with
      | some r => (dropLitCI agoChars (r.dropWhile Char.isWhitespace)).isSome
      | none => false)
  | none => false

/-- Match of the core of `\s+\d+[wdhms].*$` at the current position. -/
def coreTimeShort (l : List Char) : Bool :=
  match some l |> thenWsPlus |> thenDigits with
  | some (c :: _) => ['w', 'd', 'h', 'm', 's'].contains c.toLower
  | _ => false

/-- Match of `\s+` followed by a case-insensitive literal. -/
def coreWsLit (pat : List Char) (l : List Char) : Bool :=
  (some l |> thenWsPlus |> thenLitCI pat).isSome

/-- Match of `'s comment.*$` at the current position. -/
def coreSComment (l : List Char) : Bool := (dropLitCI sCommentChars l).isSome

/-- `re.sub(p, '', s)` for a pattern `p` that ends in `.*$`: delete from the
leftmost position whose suffix matches the core of `p` to the end. -/
def subToEnd (core : List Char → Bool) : List Char → List Char
  | [] => []
  | c :: cs => if core (c :: cs) then [] else c :: subToEnd core cs

/-- The name-cleaning loop over the eight time_patterns of
extract_comment_info (lines 132-144), each sub followed by strip. -/
def nameTimeStrip (l : List Char) : List Char :=
  let p1 := trimChars (subToEnd coreToComment1 l)
  let p2 := trimChars (subToEnd coreToComment2 p1)
  let p3 := trimChars (subToEnd coreTimeAgo p2)
  let p4 := trimChars (subToEnd coreTimeShort p3)
  let p5 := trimChars (subToEnd (coreWsLit justNowChars) p4)
  let p6 := trimChars (subToEnd (coreWsLit yesterdayChars) p5)
  let p7 := trimChars (subToEnd coreSComment p6)
  trimChars (subToEnd (coreWsLit agoChars) p7)

/-- Python `s.replace(pat, '')` for a nonempty `pat` (all occurrences,
case-sensitive, left to right). -/
def removeAll (pat : List Char) : Nat → List Char → List Char
  | 0, l => l
  | _ + 1, [] => []
  | fuel + 1, c :: cs =>
    if pat.isPrefixOf (c :: cs) then removeAll pat fuel ((c :: cs).drop pat.length)
    else c :: removeAll pat fuel cs

def commentByChars : List Char := "Comment by".toList
def replyByChars : List Char := "Reply by".toList
def topFanChars : List Char := "Top fan".toList

/-- Name extraction of extract_comment_info (lines 117-147): aria-label
lead-in removal, the eight time-pattern subs, and Top fan removal. -/
def extract_name (aria_label : Option String) : String :=
  let name0 : List Char :=
    match aria_label with
    | some al =>
      if al = "" then "Unknown".toList
      else if containsSub commentByChars al.toList then
        trimChars (removeAll commentByChars al.toList.length al.toList)
      else if containsSub replyByChars al.toList then
        trimChars (removeAll replyByChars al.toList.length al.toList)
      else "Unknown".toList
    | none => "Unknown".toList
  let name1 := nameTimeStrip name0
  let name2 :=
    if containsSub topFanChars name1 then
      trimChars (removeAll topFanChars name1.length name1)
    else name1
  name2.asString

/-- The UI line vocabulary of extract_comment_info (lines 176-177),
matched case-sensitively against whole lines. -/
def ui_line_elements : List String :=
  ["Author", "Top fan", "Like", "Reply", "Share", "View",
   "See more", "Hide", "Edited", "Translated", "Write a comment"]

/-- The per-line filter of extract_comment_info (lines 166-192): drop blank
lines, the commenter name, UI lines, timestamp lines and reaction counts. -/
def keepCommentLine (name : String) (line : String) : Option String :=
  let lc := pyStrip line
  if lc = "" then none
  else if lc = name then none
  else if ui_line_elements.contains lc then none
  else if matchTimestampAgo timeUnitsLine lc.toList then none
  else if matchTimestampShort lc.toList then none
  else if isAllDigits lc.toList then none
  else some lc

/-- Python `s.split(chr(10))` helper (cut at every newline). -/
def splitOnNl : List Char → List Char → List (List Char)
  | [], acc => [acc.reverse]
  | c :: cs, acc =>
    if c = '\n' then acc.reverse :: splitOnNl cs [] else splitOnNl cs (c :: acc)

def splitLines (s : String) : List String := (splitOnNl s.toList []).map List.asString

/-- `re.sub` of the loose at-sign pattern on line 216: an at-sign followed
by optional whitespace and then (lookahead) whitespace or end of string is
deleted; the lookahead character survives. -/
def stripLooseAt : Nat → List Char → List Char
  | 0, l => l
  | _ + 1, [] => []
  | fuel + 1, c :: cs =>
    if c = '@' then
      let run := cs.takeWhile Char.isWhitespace
      let rest := cs.dropWhile Char.isWhitespace
      if rest.isEmpty then []
      else if run.isEmpty then c :: stripLooseAt fuel cs
      else run.getLastD ' ' :: stripLooseAt fuel rest
    else c :: stripLooseAt fuel cs

/-- The sticker body of extract_comment_info (lines 152-159): the first
comma-separated segment of the sticker aria-label, or plain Sticker when
the label is missing, empty or has no comma. -/
def stickerText : Option String → String
  | some lbl =>
    if lbl ≠ "" && lbl.toList.contains ',' then
      "[Sticker: " ++ (lbl.toList.takeWhile (fun c => c ≠ ',')).asString ++ "]"
    else "[Sticker]"
  | none => "[Sticker]"

/-- A comment DOM element as extract_comment_info observes it:
its inner text, its aria-label, the result of the sticker descendant query
(`some lbl` means a sticker element is present and `get_attribute` returned
`lbl`), and the inner texts of its attribution/profile links. -/
structure CommentElement where
  inner_text : String
  aria_label : Option String
  sticker_label : Option (Option String)
  tagged_names : List String
deriving DecidableEq

/-- FB_Scraper_V2.extract_comment_info (lines 115-235): name extraction,
the sticker short-circuit, line filtering, tagged-name removal, whitespace
cleanup, name-prefix removal and the final is_meaningful_text gate. -/
def extract_comment_info (el : CommentElement) : String × String :=
  let name := extract_name el.aria_label
  if el.inner_text = "" then (name, "")
  else
    match el.sticker_label with
    | some slbl => (name, stickerText slbl)
    | none =>
      let comment_lines := (splitLines el.inner_text).filterMap (keepCommentLine name)
      let text0 := String.intercalate " " comment_lines
      let tagged :=
        (el.tagged_names.filter (fun t => t ≠ "" && pyStrip t ≠ "")).map pyStrip
      let text1 := tagged.foldl
        (fun t tn =>
          if containsSub tn.toList t.toList then
            let t2 := (trimChars (removeAll tn.toList t.toList.length t.toList)).asString
            (trimChars (removeAll ("@" ++ tn).toList t2.toList.length t2.toList)).asString
          else t) text0
      let text2 := (trimChars (stripLooseAt text1.toList.length text1.toList)).asString
      let text3 := (collapseWsChars text2.toList).asString
      let text4 :=
        if (name ++ " ").toList.isPrefixOf text3.toList then
          (text3.toList.drop (name.toList.length + 1)).asString
        else if name.toList.isPrefixOf text3.toList then
          (text3.toList.drop name.toList.length).asString
        else text3
      let text5 := pyStrip text4
      if is_meaningful_text text5 name then (name, text5) else (name, "")

/- ------------------------------------------------------------------ -/
/- Comment store and session state (C2, C3, C9).                       -/
/- FB_Scraper_V2.py: scrape_visible_comments (349-409),                -/
/- scrape_single_url (640-667), save_results (669-690).                -/
/- scraper_full.py: scrape_post_comments (655-718), run (1058-1151).   -/
/- ------------------------------------------------------------------ -/

/-- A V2 output record (URL, Caption, Commenter, Comment). -/
structure CommentRecordV2 where
  url : String
  caption : String
  commenter : String
  comment : String
deriving DecidableEq

/-- The mutable state of FacebookCommentScraper: all_comments,
processed_comment_texts and expanded_buttons. -/
structure ScraperStateV2 where
  all_comments : List CommentRecordV2
  processed_comment_texts : List String
  expanded_buttons : List String
deriving DecidableEq

def emptyStateV2 : ScraperStateV2 := ⟨[], [], []⟩

/-- FB_Scraper_V2.scrape_visible_comments (lines 387-403): the acceptance
loop over extraction results (name, text): a nonempty text not yet in
processed_comment_texts is recorded and added to the dedup set. -/
def scrape_visible_comments (post_url post_caption : String)
    (extracted : List (String × String)) (st : ScraperStateV2) : ScraperStateV2 :=
  extracted.foldl
    (fun st nt =>
      if nt.2 ≠ "" then
        if nt.2 ∈ st.processed_comment_texts then st
        else
          { st with
            processed_comment_texts := nt.2 :: st.processed_comment_texts,
            all_comments := st.all_comments ++ [⟨post_url, post_caption, nt.1, nt.2⟩] }
      else st)
    st

/-- FB_Scraper_V2.scrape_single_url (lines 640-646): clear
processed_comment_texts and expanded_buttons, then scrape the URL.  The
per-URL extraction results stand in for the cycle loop of the page. -/
def scrape_single_url (url caption : String)
    (extracted : List (String × String)) (st : ScraperStateV2) : ScraperStateV2 :=
  let st := { st with processed_comment_texts := [], expanded_buttons := [] }
  scrape_visible_comments url caption extracted st

/-- One URL of a V2 run: target URL, its caption, and the extraction
results its pages produced. -/
structure UrlInput where
  url : String
  caption : String
  extracted : List (String × String)

/-- FB_Scraper_V2.run_scraper (lines 774-777): process the URL list in
order through scrape_single_url. -/
def run_scraper (inputs : List UrlInput) (st : ScraperStateV2) : ScraperStateV2 :=
  inputs.foldl (fun st u => scrape_single_url u.url u.caption u.extracted st) st

/-- `df.drop_duplicates(subset=[Comment], keep='first')` of
FB_Scraper_V2.save_results (line 679): keep the first row of each Comment
value.  `seen` is the set of Comment values already kept. -/
def drop_duplicates_by_comment : List CommentRecordV2 → List String → List CommentRecordV2
  | [], _ => []
  | r :: rs, seen =>
    if r.comment ∈ seen then drop_duplicates_by_comment rs seen
    else r :: drop_duplicates_by_comment rs (r.comment :: seen)

/-- A scraper_full output record (URL, Type, Caption, Commenter, Comment). -/
structure CommentRecordFull where
  url : String
  type : String
  caption : String
  commenter : String
  comment : String
deriving DecidableEq

/-- The mutable state of FacebookScraperFullHeadless: all_comments and
processed_texts.  There is no per-URL reset of processed_texts. -/
structure ScraperStateFull where
  all_comments : List CommentRecordFull
  processed_texts : List String
deriving DecidableEq

def emptyStateFull : ScraperStateFull := ⟨[], []⟩

/-- The insert step of scraper_full (scrape_post_comments lines 697-711 and
the identical blocks of scrape_watch/scrape_reel): normalise the body, check
membership in processed_texts, and on a miss record the comment and the
normalised key.  Returns the new state and whether the record was added. -/
def tryAdd (st : ScraperStateFull) (url ty caption name ctext : String) :
    ScraperStateFull × Bool :=
  let text_normalized := normalizeBody ctext
  if text_normalized ∈ st.processed_texts then (st, false)
  else
    ({ all_comments := st.all_comments ++ [⟨url, ty, caption, name, ctext⟩],
       processed_texts := text_normalized :: st.processed_texts }, true)

/-- scraper_full.scrape_post_comments (lines 659-718): the article loop;
articles with an empty extracted comment text are skipped, the rest go
through the dedup insert. -/
def scrape_post_comments (url ty caption : String)
    (articles : List (String × String)) (st : ScraperStateFull) : ScraperStateFull :=
  articles.foldl
    (fun st a => if a.2 = "" then st else (tryAdd st url ty caption a.1 a.2).1) st

/-- One URL of a scraper_full run. -/
structure UrlInputFull where
  url : String
  type : String
  caption : String
  articles : List (String × String)

/-- scraper_full.run (lines 1085-1121): process the URL list in order; the
state, and in particular processed_texts, is never reset between URLs. -/
def run_full (inputs : List UrlInputFull) (st : ScraperStateFull) : ScraperStateFull :=
  inputs.foldl
    (fun st u => scrape_post_comments u.url u.type u.caption u.articles st) st

/- ------------------------------------------------------------------ -/
/- Harvest cycle loops (C6, C7, C8).                                   -/
/- FB_Scraper_V2.py: scrape_watch_video (489-522), scrape_reel          -/
/- (524-558), scrape_post (560-638).  scraper_full.py: scrape_watch     -/
/- (280-348), scrape_reel (579-647), scrape_post (865-1041).            -/
/- ------------------------------------------------------------------ -/

/-- What one cycle of a harvest loop observes: how many new records the
scan accepted, whether a view-more button was clicked, and (posts only)
whether the end-of-thread marker was seen. -/
structure CycleOutcome where
  newCount : Nat
  viewMoreClicked : Bool
  atEnd : Bool
deriving DecidableEq

/-- The shared streak update: when the cycle accepted nothing and the
guarding reveal flag is off, the streak grows and the loop stops at the
threshold; otherwise the streak resets to zero. -/
def streakUpdate (threshold streak newCount : Nat) (revealFired : Bool) :
    Nat × Bool :=
  if newCount == 0 && !revealFired then
    (streak + 1, decide (threshold ≤ streak + 1))
  else (0, false)

/-- FB_Scraper_V2.scrape_watch_video cycle loop (lines 503-522); returns
the number of cycles executed.  `anyComments` is the result of the
first-cycle comment-presence query on line 513. -/
def watchV2Go (env : Nat → CycleOutcome) (anyComments : Bool) :
    Nat → Nat → Nat → Nat
  | _, cycle, 0 => cycle - 1
  | streak, cycle, r + 1 =>
    if cycle == 1 && (env cycle).newCount == 0 && !anyComments then cycle
    else if (streakUpdate 3 streak (env cycle).newCount (env cycle).viewMoreClicked).2 then
      cycle
    else
      watchV2Go env anyComments
        (streakUpdate 3 streak (env cycle).newCount (env cycle).viewMoreClicked).1
        (cycle + 1) r

def watchV2CyclesRun (anyComments : Bool) (env : Nat → CycleOutcome) : Nat :=
  watchV2Go env anyComments 0 1 50

/-- FB_Scraper_V2.scrape_reel cycle loop (lines 541-558). -/
def reelV2Go (env : Nat → CycleOutcome) : Nat → Nat → Nat → Nat
  | _, cycle, 0 => cycle - 1
  | streak, cycle, r + 1 =>
    if cycle == 1 && (env cycle).newCount == 0 then cycle
    else if (streakUpdate 3 streak (env cycle).newCount (env cycle).viewMoreClicked).2 then
      cycle
    else
      reelV2Go env
        (streakUpdate 3 streak (env cycle).newCount (env cycle).viewMoreClicked).1
        (cycle + 1) r

def reelV2CyclesRun (env : Nat → CycleOutcome) : Nat := reelV2Go env 0 1 50

/-- FB_Scraper_V2.scrape_post cycle loop (lines 587-638): first-cycle
zero-yield break, end-marker break, then the plain streak update with no
reveal guard. -/
def postV2Go (env : Nat → CycleOutcome) : Nat → Nat → Nat → Nat
  | _, cycle, 0 => cycle - 1
  | streak, cycle, r + 1 =>
    if cycle == 1 && (env cycle).newCount == 0 then cycle
    else if (env cycle).atEnd && (env cycle).newCount == 0 then cycle
    else if (streakUpdate 3 streak (env cycle).newCount false).2 then cycle
    else postV2Go env (streakUpdate 3 streak (env cycle).newCount false).1 (cycle + 1) r

def postV2CyclesRun (env : Nat → CycleOutcome) : Nat := postV2Go env 0 1 50

/-- scraper_full.scrape_watch cycle loop (lines 283-348): no first-cycle
rule, no reveal guard, streak threshold 4, at most 30 cycles. -/
def watchFullGo (env : Nat → CycleOutcome) : Nat → Nat → Nat → Nat
  | _, cycle, 0 => cycle - 1
  | streak, cycle, r + 1 =>
    if (streakUpdate 4 streak (env cycle).newCount false).2 then cycle
    else watchFullGo env (streakUpdate 4 streak (env cycle).newCount false).1 (cycle + 1) r

def watchFullCyclesRun (env : Nat → CycleOutcome) : Nat := watchFullGo env 0 1 30

/-- scraper_full.scrape_reel cycle loop (lines 582-647): streak threshold
3, at most 50 cycles. -/
def reelFullGo (env : Nat → CycleOutcome) : Nat → Nat → Nat → Nat
  | _, cycle, 0 => cycle - 1
  | streak, cycle, r + 1 =>
    if (streakUpdate 3 streak (env cycle).newCount false).2 then cycle
    else reelFullGo env (streakUpdate 3 streak (env cycle).newCount false).1 (cycle + 1) r

def reelFullCyclesRun (env : Nat → CycleOutcome) : Nat := reelFullGo env 0 1 50

/-- scraper_full.scrape_post cycle loop (lines 868-1041): streak threshold
3, at most 20 cycles. -/
def postFullGo (env : Nat → CycleOutcome) : Nat → Nat → Nat → Nat
  | _, cycle, 0 => cycle - 1
  | streak, cycle, r + 1 =>
    if (streakUpdate 3 streak (env cycle).newCount false).2 then cycle
    else postFullGo env (streakUpdate 3 streak (env cycle).newCount false).1 (cycle + 1) r

def postFullCyclesRun (env : Nat → CycleOutcome) : Nat := postFullGo env 0 1 20

/-- The all-zero-yield container: every cycle accepts nothing, clicks
nothing, sees no end marker. -/
def zeroEnv : Nat → CycleOutcome := fun _ => ⟨0, false, false⟩

/-- A container whose first cycle yields one record and nothing after. -/
def oneThenZeroEnv : Nat → CycleOutcome :=
  fun n => if n == 1 then ⟨1, false, false⟩ else ⟨0, false, false⟩

/-- A container where every cycle clicks a view-more button but never
yields a new record. -/
def revealEnv : Nat → CycleOutcome := fun _ => ⟨0, true, false⟩

/-- A sticker-only comment element: its visible text is pure UI chrome,
its sticker descendant carries a labelled sticker. -/
def stickerElement : CommentElement :=
  ⟨"Like\nReply", some "Comment by Bob", some (some "Happy sticker, animated"), []⟩

/-- The save-time invariant of the scraper_full store: the recorded
comments have pairwise distinct normalised bodies, and every recorded
normalised body is registered in processed_texts. -/
def goodFullState (st : ScraperStateFull) : Prop :=
  (st.all_comments.map (fun r => normalizeBody r.comment)).Nodup ∧
  ∀ r ∈ st.all_comments, normalizeBody r.comment ∈ st.processed_texts

/- ------------------------------------------------------------------ -/
/- Helper lemmas.                                                      -/
/- ------------------------------------------------------------------ -/

theorem trimChars_sublist (l : List Char) : (trimChars l).Sublist l := by
  have h1 : (l.dropWhile Char.isWhitespace).Sublist l :=
    (List.dropWhile_suffix _).sublist
  have h2 :
      ((l.dropWhile Char.isWhitespace).reverse.dropWhile Char.isWhitespace).Sublist
        (l.dropWhile Char.isWhitespace).reverse :=
    (List.dropWhile_suffix _).sublist
  have h3 := h2.reverse
  rw [List.reverse_reverse] at h3
  exact h3.trans h1

theorem stripMentionsA_sublist : ∀ (fuel : Nat) (l : List Char),
    (stripMentionsA fuel l).Sublist l := by
  intro fuel
  induction fuel with
  | zero => intro l; exact List.Sublist.refl l
  | succ n ih =>
    intro l
    match l with
    | [] => exact List.Sublist.refl []
    | c :: cs =>
      simp only [stripMentionsA]
      split
      · exact ((ih _).trans ((List.dropWhile_suffix _).sublist)).cons c
      · exact (ih cs).cons₂ c

theorem stripMentionsB_sublist : ∀ (fuel : Nat) (l : List Char),
    (stripMentionsB fuel l).Sublist l := by
  intro fuel
  induction fuel with
  | zero => intro l; exact List.Sublist.refl l
  | succ n ih =>
    intro l
    match l with
    | [] => exact List.Sublist.refl []
    | c :: cs =>
      simp only [stripMentionsB]
      split
      · exact ((ih _).trans (((List.dropWhile_suffix _).sublist).trans
          ((List.dropWhile_suffix _).sublist))).cons c
      · exact (ih cs).cons₂ c

theorem dropLitCI_sublist : ∀ (p l r : List Char), dropLitCI p l = some r → r.Sublist l := by
  intro p
  induction p with
  | nil =>
    intro l r h
    rw [dropLitCI] at h
    cases h
    exact List.Sublist.refl l
  | cons a as ih =>
    intro l r h
    match l with
    | [] => exact absurd h (by simp [dropLitCI])
    | c :: cs =>
      rw [dropLitCI] at h
      split at h
      · exact (ih cs r h).cons c
      · exact absurd h (by simp)

theorem tryStripWordIn_sublist : ∀ (ws : List (List Char)) (l r : List Char),
    tryStripWordIn ws l = some r → r.Sublist l := by
  intro ws
  induction ws with
  | nil => intro l r h; exact absurd h (by simp [tryStripWordIn])
  | cons w ws ih =>
    intro l r h
    rw [tryStripWordIn] at h
    cases heq : dropLitCI w l with
    | some rest =>
      rw [heq] at h
      dsimp only at h
      by_cases hb : wordBoundaryOk rest = true
      · rw [if_pos hb] at h
        injection h with h2
        exact h2 ▸ dropLitCI_sublist w l rest heq
      · rw [if_neg hb] at h
        exact ih l r h
    | none =>
      rw [heq] at h
      dsimp only at h
      exact ih l r h

theorem stripUIWordTokens_sublist : ∀ (fuel : Nat) (b : Bool) (l : List Char),
    (stripUIWordTokens fuel b l).Sublist l := by
  intro fuel
  induction fuel with
  | zero => intro b l; exact List.Sublist.refl l
  | succ n ih =>
    intro b l
    match l with
    | [] => exact List.Sublist.refl []
    | c :: cs =>
      simp only [stripUIWordTokens]
      split
      · exact (ih _ cs).cons₂ c
      · cases heq : tryStripWordIn uiStripWords (c :: cs) with
        | some rest =>
          exact (ih true rest).trans (tryStripWordIn_sublist _ _ _ heq)
        | none =>
          exact (ih _ cs).cons₂ c

theorem cleanTestText_sublist (l : List Char) : (cleanTestText l).Sublist l := by
  unfold cleanTestText
  exact (trimChars_sublist _).trans ((stripUIWordTokens_sublist _ _ _).trans
    ((stripMentionsB_sublist _ _).trans (stripMentionsA_sublist _ _)))

theorem countSignificant_mono {l₁ l₂ : List Char} (h : l₁.Sublist l₂) :
    countSignificant l₁ ≤ countSignificant l₂ := h.countP_le _

theorem countSignificant_le_length (l : List Char) :
    countSignificant l ≤ l.length := List.countP_le_length _

theorem isJunkOnly_eq_false {l : List Char} (h : 0 < countSignificant l) :
    isJunkOnly l = false := by
  obtain ⟨c, hc, hcp⟩ := List.countP_pos_iff.mp h
  have hall : l.all isJunkChar = false := by
    rw [List.all_eq_false]
    exact ⟨c, hc, by simpa using hcp⟩
  simp [isJunkOnly, hall]

theorem countSignificant_digits {l : List Char} (h : isAllDigits l = true) :
    countSignificant l = 0 := by
  rw [isAllDigits, Bool.and_eq_true] at h
  rw [countSignificant, List.countP_eq_zero]
  intro c hc
  have : c.isDigit = true := by
    have := h.2
    rw [List.all_eq_true] at this
    exact this c hc
  simp [isJunkChar, this]

theorem watchV2Go_le (env : Nat → CycleOutcome) (anyComments : Bool) :
    ∀ (r s c : Nat), watchV2Go env anyComments s c r ≤ c - 1 + r := by
  intro r
  induction r with
  | zero => intro s c; simp [watchV2Go]
  | succ n ih =>
    intro s c
    rw [watchV2Go]
    split
    · omega
    · split
      · omega
      · have := ih (streakUpdate 3 s (env c).newCount (env c).viewMoreClicked).1 (c + 1)
        omega

theorem watchV2Go_ge (env : Nat → CycleOutcome) (anyComments : Bool) :
    ∀ (r s c : Nat), c - 1 ≤ watchV2Go env anyComments s c r := by
  intro r
  induction r with
  | zero => intro s c; simp [watchV2Go]
  | succ n ih =>
    intro s c
    rw [watchV2Go]
    split
    · omega
    · split
      · omega
      · have := ih (streakUpdate 3 s (env c).newCount (env c).viewMoreClicked).1 (c + 1)
        omega

theorem reelV2Go_le (env : Nat → CycleOutcome) :
    ∀ (r s c : Nat), reelV2Go env s c r ≤ c - 1 + r := by
  intro r
  induction r with
  | zero => intro s c; simp [reelV2Go]
  | succ n ih =>
    intro s c
    rw [reelV2Go]
    split
    · omega
    · split
      · omega
      · have := ih (streakUpdate 3 s (env c).newCount (env c).viewMoreClicked).1 (c + 1)
        omega

theorem postV2Go_le (env : Nat → CycleOutcome) :
    ∀ (r s c : Nat), postV2Go env s c r ≤ c - 1 + r := by
  intro r
  induction r with
  | zero => intro s c; simp [postV2Go]
  | succ n ih =>
    intro s c
    rw [postV2Go]
    split
    · omega
    · split
      · omega
      · split
        · omega
        · have := ih (streakUpdate 3 s (env c).newCount false).1 (c + 1)
          omega

theorem watchFullGo_le (env : Nat → CycleOutcome) :
    ∀ (r s c : Nat), watchFullGo env s c r ≤ c - 1 + r := by
  intro r
  induction r with
  | zero => intro s c; simp [watchFullGo]
  | succ n ih =>
    intro s c
    rw [watchFullGo]
    split
    · omega
    · have := ih (streakUpdate 4 s (env c).newCount false).1 (c + 1)
      omega

theorem reelFullGo_le (env : Nat → CycleOutcome) :
    ∀ (r s c : Nat), reelFullGo env s c r ≤ c - 1 + r := by
  intro r
  induction r with
  | zero => intro s c; simp [reelFullGo]
  | succ n ih =>
    intro s c
    rw [reelFullGo]
    split
    · omega
    · have := ih (streakUpdate 3 s (env c).newCount false).1 (c + 1)
      omega

theorem postFullGo_le (env : Nat → CycleOutcome) :
    ∀ (r s c : Nat), postFullGo env s c r ≤ c - 1 + r := by
  intro r
  induction r with
  | zero => intro s c; simp [postFullGo]
  | succ n ih =>
    intro s c
    rw [postFullGo]
    split
    · omega
    · have := ih (streakUpdate 3 s (env c).newCount false).1 (c + 1)
      omega

theorem watchV2Go_ge_succ (env : Nat → CycleOutcome) (anyComments : Bool)
    (r s c : Nat) : c ≤ watchV2Go env anyComments s c (r + 1) := by
  rw [watchV2Go]
  split
  · omega
  · split
    · omega
    · have := watchV2Go_ge env anyComments r
        (streakUpdate 3 s (env c).newCount (env c).viewMoreClicked).1 (c + 1)
      omega

theorem foldl_preserves {α β : Type} {P : α → Prop} {f : α → β → α}
    (h : ∀ a b, P a → P (f a b)) :
    ∀ (l : List β) (a : α), P a → P (List.foldl f a l) := by
  intro l
  induction l with
  | nil => intro a ha; simpa using ha
  | cons x xs ih =>
    intro a ha
    rw [List.foldl_cons]
    exact ih _ (h a x ha)

theorem drop_duplicates_filter :
    ∀ (l : List CommentRecordV2) (seen : List String) (c : String),
      (drop_duplicates_by_comment l seen).filter (fun r => r.comment == c) =
        if c ∈ seen then [] else (l.filter (fun r => r.comment == c)).take 1 := by
  intro l
  induction l with
  | nil =>
    intro seen c
    rw [drop_duplicates_by_comment]
    by_cases hc : c ∈ seen <;> simp [hc]
  | cons r rs ih =>
    intro seen c
    rw [drop_duplicates_by_comment]
    by_cases hmem : r.comment ∈ seen
    · by_cases hc : c ∈ seen
      · simp [hmem, hc, ih, List.filter_cons]
      · have hne : r.comment ≠ c := fun he => hc (he ▸ hmem)
        simp [hmem, hc, ih, List.filter_cons, hne]
    · by_cases hrc : r.comment = c
      · subst hrc
        simp [hmem, ih, List.filter_cons]
      · by_cases hc : c ∈ seen
        · simp [hmem, hc, ih, List.filter_cons, hrc]
        · simp [hmem, hc, ih, List.filter_cons, hrc, Ne.symm hrc]

theorem drop_duplicates_invariant :
    ∀ (l : List CommentRecordV2) (seen : List String),
      ((drop_duplicates_by_comment l seen).map (fun r => r.comment)).Nodup ∧
      ∀ r ∈ drop_duplicates_by_comment l seen, r.comment ∉ seen := by
  intro l
  induction l with
  | nil => intro seen; simp [drop_duplicates_by_comment]
  | cons r rs ih =>
    intro seen
    rw [drop_duplicates_by_comment]
    by_cases hmem : r.comment ∈ seen
    · rw [if_pos hmem]
      exact ih seen
    · rw [if_neg hmem]
      obtain ⟨ihn, ihs⟩ := ih (r.comment :: seen)
      refine ⟨?_, ?_⟩
      · rw [List.map_cons, List.nodup_cons]
        refine ⟨?_, ihn⟩
        intro hin
        obtain ⟨r2, hr2, hr2e⟩ := List.mem_map.mp hin
        exact (ihs r2 hr2) (hr2e ▸ List.mem_cons_self _ _)
      · intro r2 hr2
        rcases List.mem_cons.mp hr2 with he | ht
        · exact he ▸ hmem
        · intro hin
          exact (ihs r2 ht) (List.mem_cons_of_mem _ hin)

theorem tryAdd_good (st : ScraperStateFull) (url ty caption name ctext : String)
    (h : goodFullState st) : goodFullState (tryAdd st url ty caption name ctext).1 := by
  rw [tryAdd]
  by_cases hmem : normalizeBody ctext ∈ st.processed_texts
  · rw [if_pos hmem]
    exact h
  · rw [if_neg hmem]
    obtain ⟨hn, hs⟩ := h
    constructor
    · rw [List.map_append, List.nodup_append]
      refine ⟨hn, List.nodup_singleton _, ?_⟩
      intro k hk hk2
      simp only [List.map_cons, List.map_nil, List.mem_singleton] at hk2
      obtain ⟨r2, hr2, hr2e⟩ := List.mem_map.mp hk
      exact hmem (hk2 ▸ hr2e ▸ hs r2 hr2)
    · intro r2 hr2
      rcases List.mem_append.mp hr2 with ht | hh
      · exact List.mem_cons_of_mem _ (hs r2 ht)
      · simp only [List.mem_singleton] at hh
        subst hh
        exact List.mem_cons_self _ _

theorem scrape_post_comments_good (url ty caption : String)
    (articles : List (String × String)) (st : ScraperStateFull)
    (h : goodFullState st) :
    goodFullState (scrape_post_comments url ty caption articles st) := by
  rw [scrape_post_comments]
  refine foldl_preserves ?_ articles st h
  intro st2 a h2
  by_cases he : a.2 = ""
  · simpa [he] using h2
  · simpa [he] using tryAdd_good st2 url ty caption a.1 a.2 h2

theorem run_full_good (inputs : List UrlInputFull) (st : ScraperStateFull)
    (h : goodFullState st) : goodFullState (run_full inputs st) := by
  rw [run_full]
  refine foldl_preserves ?_ inputs st h
  intro st2 u h2
  exact scrape_post_comments_good u.url u.type u.caption u.articles st2 h2

theorem emptyStateFull_good : goodFullState emptyStateFull := by
  constructor
  · simp [emptyStateFull]
  · intro r hr
    simp [emptyStateFull] at hr

/- ------------------------------------------------------------------ -/
/- Claim theorems.                                                     -/
/- ------------------------------------------------------------------ -/

/-- C1, counterexample: the URL https://site/about matches no watch, reel or
post pattern, yet scraper_full.determine_url_type classifies it as POST, not
as the Watch default the claim states. -/
theorem C1_counterexample :
    anyPatternIn watch_patterns "https://site/about" = false ∧
    anyPatternIn reel_patterns "https://site/about" = false ∧
    anyPatternIn post_patterns "https://site/about" = false ∧
    determine_url_type_full "https://site/about" = "POST" ∧
    determine_url_type_full "https://site/about" ≠ "WATCH" := by decide

/-- C1, amended: both classifiers are pure functions on the URL string; a
watch-style URL yields Watch, a reel URL yields Reel and a posts URL yields
Post in both; the watch group wins first in both; a URL matching no pattern
group defaults to Watch in FB_Scraper_V2 but to Post in scraper_full. -/
theorem C1_url_classification :
    (determine_url_type "https://site/watch/?v=1" = "watch" ∧
     determine_url_type_full "https://site/watch/?v=1" = "WATCH") ∧
    (determine_url_type "https://site/reel/55" = "reel" ∧
     determine_url_type_full "https://site/reel/55" = "REEL") ∧
    (determine_url_type "https://site/posts/9" = "post" ∧
     determine_url_type_full "https://site/posts/9" = "POST") ∧
    (∀ url : String, anyPatternIn watch_patterns url = true →
        determine_url_type url = "watch" ∧ determine_url_type_full url = "WATCH") ∧
    (∀ url : String, anyPatternIn watch_patterns url = false →
        anyPatternIn reel_patterns url = false →
        anyPatternIn post_patterns url = false →
        determine_url_type url = "watch" ∧ determine_url_type_full url = "POST") := by
  refine ⟨by decide, by decide, by decide, ?_, ?_⟩
  · intro url hw
    constructor
    · rw [determine_url_type, if_pos hw]
    · rw [determine_url_type_full, if_pos hw]
  · intro url hw hr hp
    constructor
    · rw [determine_url_type, if_neg (by simp [hw]), if_neg (by simp [hr]),
        if_neg (by simp [hp])]
    · rw [determine_url_type_full, if_neg (by simp [hw]), if_neg (by simp [hr])]

/-- C1, witness: the default branches at the concrete unmatched URL. -/
theorem C1_witness :
    anyPatternIn watch_patterns "https://site/about" = false ∧
    determine_url_type "https://site/about" = "watch" ∧
    determine_url_type_full "https://site/about" = "POST" :=
  ⟨by decide,
   (C1_url_classification.2.2.2.2 "https://site/about" (by decide) (by decide)
      (by decide)).1,
   (C1_url_classification.2.2.2.2 "https://site/about" (by decide) (by decide)
      (by decide)).2⟩

/-- C2, counterexample: in scraper_full a run over two URLs that both
surface the body hello stores it only once, because processed_texts is
never cleared between URLs: the claim that the dedup state is reset at the
start of each URL fails for scraper_full. -/
theorem C2_counterexample :
    (run_full [⟨"u1", "POST", "c1", [("A", "hello")]⟩,
               ⟨"u2", "POST", "c2", [("B", "hello")]⟩] emptyStateFull).all_comments =
      [⟨"u1", "POST", "c1", "A", "hello"⟩] := by decide

/-- C2, amended: in FB_Scraper_V2 the per-URL harvest state is reset at the
start of each URL (scrape_single_url is insensitive to the incoming dedup
and expanded-button sets, and the same body is accepted again on a later
URL), while in scraper_full processed_texts persists across URLs (it only
ever grows during a URL's processing). -/
theorem C2_per_url_reset :
    (∀ (st : ScraperStateV2) (url caption : String)
        (extracted : List (String × String)),
        scrape_single_url url caption extracted st =
          scrape_single_url url caption extracted ⟨st.all_comments, [], []⟩) ∧
    ((run_scraper [⟨"u1", "c1", [("A", "hello")]⟩, ⟨"u2", "c2", [("B", "hello")]⟩]
        emptyStateV2).all_comments.map (fun r => r.comment) = ["hello", "hello"]) ∧
    (∀ (st : ScraperStateFull) (url ty caption : String)
        (articles : List (String × String)),
        st.processed_texts ⊆ (scrape_post_comments url ty caption articles st).processed_texts) := by
  refine ⟨?_, by decide, ?_⟩
  · intro st url caption extracted
    rfl
  · intro st url ty caption articles
    rw [scrape_post_comments]
    refine foldl_preserves (P := fun s => st.processed_texts ⊆ s.processed_texts)
      ?_ articles st (fun x hx => hx)
    intro st2 a h2
    by_cases he : a.2 = ""
    · simpa [he] using h2
    · rw [if_neg he, tryAdd]
      by_cases hmem : normalizeBody a.2 ∈ st2.processed_texts
      · rw [if_pos hmem]
        exact h2
      · rw [if_neg hmem]
        exact h2.trans (List.subset_cons_self _ _)

/-- C3, counterexample: the FB_Scraper_V2 store checks the raw body with no
normalisation, and sticker bodies bypass the whitespace collapse of
extract_comment_info, so the two reachable bodies [Sticker: a  b] and
[Sticker: a b] differ only in an internal whitespace run, normalise
identically, and are nonetheless both stored within one URL session. -/
theorem C3_counterexample :
    normalizeBody "[Sticker: a  b]" = normalizeBody "[Sticker: a b]" ∧
    ("[Sticker: a  b]" : String) ≠ "[Sticker: a b]" ∧
    (extract_comment_info
        ⟨"x", some "Comment by Bob", some (some "a  b, animated"), []⟩).2 =
      "[Sticker: a  b]" ∧
    (extract_comment_info
        ⟨"x", some "Comment by Bob", some (some "a b, animated"), []⟩).2 =
      "[Sticker: a b]" ∧
    (scrape_visible_comments "u" "c"
        [("Bob", "[Sticker: a  b]"), ("Bob", "[Sticker: a b]")]
        emptyStateV2).all_comments.length = 2 := by decide

/-- C3, amended: the scraper_full store normalises the body by collapsing
whitespace runs before the dedup membership check, rejects a duplicate
silently (state unchanged, false returned), and stores exactly one record
for two adds whose bodies agree after normalisation.  The FB_Scraper_V2
store instead checks the raw body: a raw duplicate is rejected silently
and an exact repeat within one URL session stores one record; non-sticker
bodies reach it already whitespace-collapsed by extract_comment_info, but
sticker bodies bypass the collapse, so whitespace-variant sticker bodies
are both stored. -/
theorem C3_store_dedup :
    (∀ (st : ScraperStateFull) (url ty caption name ctext : String),
        normalizeBody ctext ∈ st.processed_texts →
        tryAdd st url ty caption name ctext = (st, false)) ∧
    (∀ (url ty caption n1 n2 t1 t2 : String),
        normalizeBody t1 = normalizeBody t2 →
        (tryAdd (tryAdd emptyStateFull url ty caption n1 t1).1
            url ty caption n2 t2).1.all_comments.length = 1 ∧
        (tryAdd (tryAdd emptyStateFull url ty caption n1 t1).1
            url ty caption n2 t2).2 = false) ∧
    (∀ (st : ScraperStateV2) (url caption name text : String),
        text ∈ st.processed_comment_texts →
        scrape_visible_comments url caption [(name, text)] st = st) ∧
    (∀ (url caption n1 n2 text : String),
        text ≠ "" →
        (scrape_visible_comments url caption [(n1, text), (n2, text)]
            emptyStateV2).all_comments.length = 1) ∧
    (extract_comment_info
        ⟨"Bob\nnice   video\nLike", some "Comment by Bob", none, []⟩).2 =
      "nice video" ∧
    (scrape_visible_comments "u" "c"
        [("Bob", "[Sticker: a  b]"), ("Bob", "[Sticker: a b]")]
        emptyStateV2).all_comments.length = 2 := by
  refine ⟨?_, ?_, ?_, ?_, by decide, by decide⟩
  · intro st url ty caption name ctext hmem
    rw [tryAdd]
    rw [if_pos hmem]
  · intro url ty caption n1 n2 t1 t2 h
    have h1 : tryAdd emptyStateFull url ty caption n1 t1 =
        ({ all_comments := [⟨url, ty, caption, n1, t1⟩],
           processed_texts := [normalizeBody t1] }, true) := by
      rw [tryAdd]
      rw [if_neg (by simp [emptyStateFull])]
      rfl
    rw [h1]
    rw [tryAdd]
    rw [if_pos (by simp [← h])]
    simp
  · intro st url caption name text hmem
    rw [scrape_visible_comments, List.foldl_cons, List.foldl_nil]
    by_cases he : text ≠ ""
    · rw [if_pos he, if_pos hmem]
    · rw [if_neg he]
  · intro url caption n1 n2 text hne
    simp [scrape_visible_comments, emptyStateV2, hne]

/-- C3, witness: the scraper_full halves at two bodies differing only in an
internal whitespace run, and the FB_Scraper_V2 raw-body halves at a stored
duplicate and an exact repeat. -/
theorem C3_witness :
    normalizeBody "a  b" = normalizeBody "a b" ∧
    (tryAdd (tryAdd emptyStateFull "u" "POST" "c" "A" "a  b").1
        "u" "POST" "c" "B" "a b").1.all_comments.length = 1 ∧
    (tryAdd (tryAdd emptyStateFull "u" "POST" "c" "A" "a  b").1
        "u" "POST" "c" "B" "a b").2 = false ∧
    ("hi" : String) ∈ (⟨[], ["hi"], []⟩ : ScraperStateV2).processed_comment_texts ∧
    scrape_visible_comments "u" "c" [("A", "hi")] ⟨[], ["hi"], []⟩ =
      (⟨[], ["hi"], []⟩ : ScraperStateV2) ∧
    (scrape_visible_comments "u" "c" [("A", "ok"), ("B", "ok")]
        emptyStateV2).all_comments.length = 1 :=
  ⟨by decide,
   (C3_store_dedup.2.1 "u" "POST" "c" "A" "B" "a  b" "a b" (by decide)).1,
   (C3_store_dedup.2.1 "u" "POST" "c" "A" "B" "a  b" "a b" (by decide)).2,
   by decide,
   C3_store_dedup.2.2.1 ⟨[], ["hi"], []⟩ "u" "c" "A" "hi" (by decide),
   C3_store_dedup.2.2.2.1 "u" "c" "A" "B" "ok" (by decide)⟩

/-- C5: is_meaningful_text rejects blank input, text equal to the author
name up to case, exact UI-vocabulary matches, the relative-timestamp
patterns and pure numeric strings. -/
theorem C5_classifier_rejections (text name : String)
    (h : pyStrip text = "" ∨
         lowerStr (pyStrip text) = lowerStr name ∨
         (ui_elements.map lowerStr).contains (lowerStr (pyStrip text)) = true ∨
         isTimestampText (pyStrip text) = true ∨
         isAllDigits (pyStrip text).toList = true) :
    is_meaningful_text text name = false := by
  rw [is_meaningful_text]
  split
  next => rfl
  next h0 =>
    split
    next => rfl
    next h1 =>
      split
      next => rfl
      next h2 =>
        split
        next => rfl
        next h3 =>
          split
          next => rfl
          next h4 =>
            split
            next => rfl
            next h5 =>
              exfalso
              rcases h with hh | hh | hh | hh | hh
              · exact h0 (Or.inr hh)
              · exact h2 hh
              · exact h3 hh
              · exact h4 hh
              · exact h5 hh

/-- C5, witness: the relative timestamp 3h ago is rejected. -/
theorem C5_witness : is_meaningful_text "3h ago" "Bob" = false :=
  C5_classifier_rejections "3h ago" "Bob"
    (Or.inr (Or.inr (Or.inr (Or.inl (by decide)))))

/-- C6, counterexample: in scraper_full a view-more click fires on every
cycle and every cycle yields zero records; the streak still increments
(the loop stops instead of running to the 30-cycle budget) and the stop
comes after 4 cycles for Watch but already after 3 for Reel, so the claimed
threshold of 3 for Watch with a higher threshold for Reel is reversed. -/
theorem C6_counterexample :
    watchFullCyclesRun revealEnv = 4 ∧ reelFullCyclesRun revealEnv = 3 ∧
    (4 : Nat) ≠ 3 := by decide

/-- C6, amended: any cycle accepting at least one record resets the streak
to 0; a zero-yield cycle increments it (in FB_Scraper_V2 watch/reel only
when no view-more click fired, in scraper_full unconditionally); the
convergence thresholds are 3 for every FB_Scraper_V2 loop and for
scraper_full Reel and Post, and 4 for scraper_full Watch. -/
theorem C6_streak_semantics :
    (∀ (th s n : Nat) (g : Bool), streakUpdate th s (n + 1) g = (0, false)) ∧
    (∀ th s : Nat, streakUpdate th s 0 false = (s + 1, decide (th ≤ s + 1))) ∧
    (∀ th s : Nat, streakUpdate th s 0 true = (0, false)) ∧
    (watchFullCyclesRun zeroEnv = 4 ∧ reelFullCyclesRun zeroEnv = 3 ∧
     postFullCyclesRun zeroEnv = 3) ∧
    (watchV2CyclesRun true oneThenZeroEnv = 4 ∧
     reelV2CyclesRun oneThenZeroEnv = 4 ∧ postV2CyclesRun oneThenZeroEnv = 4) := by
  refine ⟨?_, ?_, ?_, by decide, by decide⟩
  · intro th s n g
    simp [streakUpdate]
  · intro th s
    simp [streakUpdate]
  · intro th s
    simp [streakUpdate]

/-- C7: every harvest loop executes at most its configured cycle budget,
and on an all-zero-yield container the cited watch loops stop within the
streak threshold instead of exhausting the budget. -/
theorem C7_loop_termination :
    (∀ (env : Nat → CycleOutcome) (anyComments : Bool),
        watchV2CyclesRun anyComments env ≤ 50) ∧
    (∀ env : Nat → CycleOutcome, reelV2CyclesRun env ≤ 50) ∧
    (∀ env : Nat → CycleOutcome, postV2CyclesRun env ≤ 50) ∧
    (∀ env : Nat → CycleOutcome, watchFullCyclesRun env ≤ 30) ∧
    (∀ env : Nat → CycleOutcome, reelFullCyclesRun env ≤ 50) ∧
    (∀ env : Nat → CycleOutcome, postFullCyclesRun env ≤ 20) ∧
    (∀ anyComments : Bool, watchV2CyclesRun anyComments zeroEnv ≤ 3) ∧
    watchV2CyclesRun true zeroEnv = 3 ∧ watchFullCyclesRun zeroEnv = 4 := by
  refine ⟨?_, ?_, ?_, ?_, ?_, ?_, ?_, by decide, by decide⟩
  · intro env anyComments
    have := watchV2Go_le env anyComments 50 0 1
    simpa [watchV2CyclesRun] using this
  · intro env
    have := reelV2Go_le env 50 0 1
    simpa [reelV2CyclesRun] using this
  · intro env
    have := postV2Go_le env 50 0 1
    simpa [postV2CyclesRun] using this
  · intro env
    have := watchFullGo_le env 30 0 1
    simpa [watchFullCyclesRun] using this
  · intro env
    have := reelFullGo_le env 50 0 1
    simpa [reelFullCyclesRun] using this
  · intro env
    have := postFullGo_le env 20 0 1
    simpa [postFullCyclesRun] using this
  · intro anyComments
    cases anyComments <;> decide

/-- C8: on a zero-yield first cycle the FB_Scraper_V2 reel and post loops
exit after cycle 1; the watch loop exits after cycle 1 only when the
container holds no comment elements at all, and otherwise keeps cycling. -/
theorem C8_first_cycle_rule (env : Nat → CycleOutcome)
    (h : (env 1).newCount = 0) :
    reelV2CyclesRun env = 1 ∧ postV2CyclesRun env = 1 ∧
    watchV2CyclesRun false env = 1 ∧ 2 ≤ watchV2CyclesRun true env := by
  refine ⟨?_, ?_, ?_, ?_⟩
  · rw [reelV2CyclesRun]
    rw [show (50 : Nat) = 49 + 1 from rfl]
    rw [reelV2Go]
    rw [if_pos (by simp [h])]
  · rw [postV2CyclesRun]
    rw [show (50 : Nat) = 49 + 1 from rfl]
    rw [postV2Go]
    rw [if_pos (by simp [h])]
  · rw [watchV2CyclesRun]
    rw [show (50 : Nat) = 49 + 1 from rfl]
    rw [watchV2Go]
    rw [if_pos (by simp [h])]
  · rw [watchV2CyclesRun]
    rw [show (50 : Nat) = 49 + 1 from rfl]
    rw [watchV2Go]
    rw [if_neg (by simp)]
    have hstop : (streakUpdate 3 0 (env 1).newCount (env 1).viewMoreClicked).2 = false := by
      cases hvm : (env 1).viewMoreClicked <;> simp [streakUpdate, h, hvm]
    rw [hstop]
    rw [if_neg (by simp)]
    rw [show (1 : Nat) + 1 = 2 from rfl, show (49 : Nat) = 48 + 1 from rfl]
    exact watchV2Go_ge_succ env true 48
      (streakUpdate 3 0 (env 1).newCount (env 1).viewMoreClicked).1 2

/-- C8, witness: the all-zero-yield container. -/
theorem C8_witness :
    (zeroEnv 1).newCount = 0 ∧
    (reelV2CyclesRun zeroEnv = 1 ∧ postV2CyclesRun zeroEnv = 1 ∧
     watchV2CyclesRun false zeroEnv = 1 ∧ 2 ≤ watchV2CyclesRun true zeroEnv) :=
  ⟨rfl, C8_first_cycle_rule zeroEnv rfl⟩

/-- C9: save-time dedup on the Comment column keeps the first occurrence:
the saved V2 rows have pairwise distinct comments, and for every comment
value the saved rows on that value are exactly the first matching input
row, so a body reaching the store from two URLs keeps the first URL.  In
scraper_full the written rows already carry pairwise distinct normalised
bodies because the cross-URL store never admits a duplicate.  The final
conjunct replays the two-URL scenario of the claim. -/
theorem C9_output_dedup :
    (∀ l : List CommentRecordV2,
        ((drop_duplicates_by_comment l []).map (fun r => r.comment)).Nodup) ∧
    (∀ (l : List CommentRecordV2) (c : String),
        (drop_duplicates_by_comment l []).filter (fun r => r.comment == c) =
          (l.filter (fun r => r.comment == c)).take 1) ∧
    (∀ inputs : List UrlInputFull,
        ((run_full inputs emptyStateFull).all_comments.map
          (fun r => normalizeBody r.comment)).Nodup) ∧
    drop_duplicates_by_comment
        (run_scraper [⟨"u1", "c1", [("A", "hello")]⟩, ⟨"u2", "c2", [("B", "hello")]⟩]
          emptyStateV2).all_comments [] = [⟨"u1", "c1", "A", "hello"⟩] := by
  refine ⟨?_, ?_, ?_, by decide⟩
  · intro l
    exact (drop_duplicates_invariant l []).1
  · intro l c
    have := drop_duplicates_filter l [] c
    simpa using this
  · intro inputs
    exact (run_full_good inputs emptyStateFull emptyStateFull_good).1

/-- Nonemptiness of every sticker body. -/
theorem stickerText_ne_empty (o : Option String) : stickerText o ≠ "" := by
  intro h
  rcases o with _ | lbl
  · exact absurd h (by decide)
  · rw [stickerText] at h
    split at h
    · have hlen := congrArg String.length h
      rw [String.length_append, String.length_append] at hlen
      have c1 : "[Sticker: ".length = 10 := by decide
      have c2 : "]".length = 1 := by decide
      have c3 : "".length = 0 := by decide
      omega
    · exact absurd h (by decide)

/-- C10: a comment element with nonempty inner text and a sticker
descendant short-circuits extract_comment_info: the returned body is the
sticker text (first comma segment of the label, or plain Sticker), it is
never empty, and scrape_visible_comments accepts it subject only to the
dedup check.  The last two conjuncts contrast the same UI-chrome-only
element with and without the sticker: without it the element yields the
empty body (is_meaningful_text rejects its text), with it the record is
extracted. -/
theorem C10_sticker_bypass (el : CommentElement) (slbl : Option String)
    (h1 : el.inner_text ≠ "") (h2 : el.sticker_label = some slbl) :
    (extract_comment_info el).2 = stickerText slbl ∧
    (extract_comment_info el).2 ≠ "" ∧
    (∀ (st : ScraperStateV2) (url caption name : String),
        stickerText slbl ∉ st.processed_comment_texts →
        (scrape_visible_comments url caption [(name, stickerText slbl)] st).all_comments =
          st.all_comments ++ [⟨url, caption, name, stickerText slbl⟩]) ∧
    extract_comment_info ⟨"Like\nReply", some "Comment by Bob", none, []⟩ =
      ("Bob", "") ∧
    extract_comment_info stickerElement = ("Bob", "[Sticker: Happy sticker]") := by
  obtain ⟨it, al, sl, tn⟩ := el
  simp only at h1 h2
  subst h2
  have hbody : (extract_comment_info ⟨it, al, some slbl, tn⟩).2 = stickerText slbl := by
    rw [extract_comment_info]
    rw [if_neg h1]
  refine ⟨hbody, ?_, ?_, by decide, by decide⟩
  · rw [hbody]
    exact stickerText_ne_empty slbl
  · intro st url caption name hmem
    rw [scrape_visible_comments]
    rw [List.foldl_cons, List.foldl_nil]
    rw [if_pos (by simpa using stickerText_ne_empty slbl)]
    rw [if_neg hmem]

/-- C10, witness: the concrete sticker element. -/
theorem C10_witness :
    stickerElement.inner_text ≠ "" ∧
    stickerElement.sticker_label = some (some "Happy sticker, animated") ∧
    (extract_comment_info stickerElement).2 =
      stickerText (some "Happy sticker, animated") ∧
    (extract_comment_info stickerElement).2 ≠ "" :=
  ⟨by decide, rfl,
   (C10_sticker_bypass stickerElement (some "Happy sticker, animated")
      (by decide) rfl).1,
   (C10_sticker_bypass stickerElement (some "Happy sticker, animated")
      (by decide) rfl).2.1⟩

/-- C4, counterexample: the string yesterday is nonempty, is unchanged by
the mention/UI-word stripping (9 significant characters remain), and is not
the author name, yet is_meaningful_text rejects it through the
relative-timestamp rule, so the claimed conditions are not sufficient. -/
theorem C4_counterexample :
    ("yesterday" : String) ≠ "" ∧
    2 ≤ countSignificant (cleanTestText (pyStrip "yesterday").toList) ∧
    ("yesterday" : String) ≠ "Bob" ∧
    is_meaningful_text "yesterday" "Bob" = false := by decide

/-- C4, amended: a string that is not blank, not the author name up to
case, not an exact UI-vocabulary match, not a relative-timestamp pattern,
and whose residue after stripping mentions and the UI words keeps at least
2 significant (non-digit, non-whitespace, non-listed-punctuation)
characters, is accepted by is_meaningful_text. -/
theorem C4_classifier_acceptance (text name : String)
    (h1 : pyStrip text ≠ "")
    (h2 : lowerStr (pyStrip text) ≠ lowerStr name)
    (h3 : (ui_elements.map lowerStr).contains (lowerStr (pyStrip text)) = false)
    (h4 : isTimestampText (pyStrip text) = false)
    (h5 : 2 ≤ countSignificant (cleanTestText (pyStrip text).toList)) :
    is_meaningful_text text name = true := by
  have hne : ¬(text = "" ∨ pyStrip text = "") := by
    rintro (rfl | hh)
    · exact h1 rfl
    · exact h1 hh
  have hlen1 : ¬((pyStrip text).length < 1) := by
    intro hl
    apply h1
    have h0 : (pyStrip text).data.length = 0 := by
      have : (pyStrip text).length = 0 := by omega
      exact this
    exact String.ext (by simpa using List.length_eq_zero.mp h0)
  have hdig : ¬(isAllDigits (pyStrip text).toList = true) := by
    intro hd
    have hz : countSignificant (pyStrip text).toList = 0 := countSignificant_digits hd
    have hle : countSignificant (cleanTestText (pyStrip text).toList) ≤
        countSignificant (pyStrip text).toList :=
      countSignificant_mono (cleanTestText_sublist _)
    omega
  have hfin : 2 ≤ (cleanTestText (pyStrip text).toList).length :=
    le_trans h5 (countSignificant_le_length _)
  have hjunk : isJunkOnly (cleanTestText (pyStrip text).toList) = false :=
    isJunkOnly_eq_false (by omega)
  rw [is_meaningful_text, if_neg hne, if_neg hlen1, if_neg h2,
    if_neg (show ¬_ from by rw [h3]; exact Bool.false_ne_true),
    if_neg (show ¬_ from by rw [h4]; exact Bool.false_ne_true),
    if_neg hdig, if_pos hfin, hjunk]
  rfl

/-- C4, witness: a plain two-word comment is accepted. -/
theorem C4_witness :
    pyStrip "hello there" ≠ "" ∧
    lowerStr (pyStrip "hello there") ≠ lowerStr "Bob" ∧
    (ui_elements.map lowerStr).contains (lowerStr (pyStrip "hello there")) = false ∧
    isTimestampText (pyStrip "hello there") = false ∧
    2 ≤ countSignificant (cleanTestText (pyStrip "hello there").toList) ∧
    is_meaningful_text "hello there" "Bob" = true :=
  ⟨by decide, by decide, by decide, by decide, by decide,
   C4_classifier_acceptance "hello there" "Bob" (by decide) (by decide) (by decide)
     (by decide) (by decide)⟩
